import Mathlib

/-!
Verification of the offset/flexible sequence core of the `nonstd` repository
(`src/nonstd/sequence.py` and `src/nonstd/list.py`).

The Python classes are shallowly embedded: each method becomes a Lean
function over explicit data, fallible operations return `Except PyErr`,
and Python `int` becomes `Int`.  The embedding follows the source line by
line; comments cite the Python file and construct each definition models.
-/

set_option autoImplicit false

namespace Nonstd

variable {α : Type}

/-- The Python exceptions raised by the modelled code, as structured values
(the payloads record the data interpolated into each message). -/
inductive PyErr where
  /-- Python `IndexError: list index out of range` from builtin list indexing. -/
  | indexOutOfRange
  /-- Python `IndexError` from `OffsetList._wrapped_integer_index` naming
  the configured start index and the forbidden index. -/
  | offsetForbidden (start_i index : Int)
  /-- Python `IndexError: ... Index 0 is forbidden.` from
  `nonstd/list.py OneIndexedList._wrapped_integer_index`. -/
  | oneIndexedZero
  /-- Python `IndexError("Infinite sequence")` from `FlexibleSequence.__len__`. -/
  | infiniteSequence
  /-- Python `ValueError(f"Mismatched lengths: ...")` from `FlexibleSequence.__init__`. -/
  | mismatchedLengths (specLen givenLen : Nat)
  /-- Python `IndexError(f"The result of slicing an infinite FlexibleSequence ...")`. -/
  | infiniteSliceResult
  /-- Python `NotImplementedError` from `FlexibleSequence._raise_negative_forbidden`. -/
  | negativeForbidden (index : Int)
  /-- Python `TypeError: ... object is not iterable`. -/
  | notIterable
  /-- Python `TypeError: object of type ... has no len()`. -/
  | noLen
  /-- Python `ValueError: slice step cannot be zero`. -/
  | zeroStep
  /-- Python `NotImplementedError("Cannot compare a ... to a ...")`. -/
  | cannotCompareType
  /-- Python `NotImplementedError("Cannot compare two OffsetLists with different offsets ...")`. -/
  | cannotCompareOffsets (i j : Int)
deriving DecidableEq, Repr

/-- A Python `slice(start, stop, step)` object: each bound is `None` or an int. -/
structure PySlice where
  start : Option Int
  stop : Option Int
  step : Option Int
deriving DecidableEq, Repr

/-- Builtin Python list indexing `l[i]`: a negative `i` counts from the end;
out-of-range indices raise `IndexError`. -/
def pyListGet (l : List α) (i : Int) : Except PyErr α :=
  let j : Int := if i < 0 then i + l.length else i
  if j < 0 then .error .indexOutOfRange
  else
    match l.get? j.toNat with
    | some v => .ok v
    | none => .error .indexOutOfRange

/-- CPython's `slice.indices(length)`: clamp `start`/`stop` into range for the
sign of `step` and fill in defaulted bounds.  A zero step raises `ValueError`. -/
def pySliceIndices (s : PySlice) (length : Nat) : Except PyErr (Int × Int × Int) :=
  let step := s.step.getD 1
  if step = 0 then .error .zeroStep
  else
    let L : Int := length
    let lower : Int := if 0 < step then 0 else -1
    let upper : Int := if 0 < step then L else L - 1
    let start := match s.start with
      | none => if step < 0 then upper else lower
      | some a => if a < 0 then max (a + L) lower else min a upper
    let stop := match s.stop with
      | none => if step < 0 then lower else upper
      | some b => if b < 0 then max (b + L) lower else min b upper
    .ok (start, stop, step)

/-- Python `range(start, stop, step)` (with `step ≠ 0`) materialized as a list. -/
def rangeList (start stop step : Int) : List Int :=
  if 0 < step then
    (List.range (((stop - start).toNat + (step.toNat - 1)) / step.toNat)).map
      (fun k : Nat => start + step * (k : Int))
  else if step < 0 then
    (List.range (((start - stop).toNat + ((-step).toNat - 1)) / (-step).toNat)).map
      (fun k : Nat => start + step * (k : Int))
  else []

/-- Builtin Python list slicing `l[s]`: normalize the bounds with
`slice.indices(len(l))` and gather the selected positions (all of which are
in range, so the `get?` lookups never drop an element). -/
def pyListSlice (l : List α) (s : PySlice) : Except PyErr (List α) := do
  let (start, stop, step) ← pySliceIndices s l.length
  pure ((rangeList start stop step).filterMap
    (fun i => if i < 0 then none else l.get? i.toNat))

/-! Model of `OffsetList` (`src/nonstd/sequence.py`, lines 11-112).

A `collections.UserList` whose visible indices start at `start_i`;
`data` is the underlying zero-based list. -/

/-- The state of an `OffsetList` instance: `self.data` and `self.start_i`. -/
structure OffsetList (α : Type) where
  data : List α
  start_i : Int
deriving DecidableEq, Repr

namespace OffsetList

/-- Models `OffsetList._wrapped_integer_index` (sequence.py lines 33-45): a negative
index passes through, a non-negative index below `start_i` raises, otherwise
the index is shifted down by `start_i`. -/
def wrappedIntegerIndex (ol : OffsetList α) (index : Int) : Except PyErr Int :=
  if index < 0 then .ok index
  else if index < ol.start_i then .error (.offsetForbidden ol.start_i index)
  else .ok (index - ol.start_i)

/-- The scalar rule applied to one optional slice bound (`None` passes through). -/
def wrappedOptionalIndex (ol : OffsetList α) : Option Int → Except PyErr (Option Int)
  | none => .ok none
  | some i => (ol.wrappedIntegerIndex i).map some

/-- Models `OffsetList._wrapped_slice_index` (lines 28-31): translate `start` and
`stop` independently; `step` is untouched. -/
def wrappedSliceIndex (ol : OffsetList α) (s : PySlice) : Except PyErr PySlice := do
  let a ← ol.wrappedOptionalIndex s.start
  let b ← ol.wrappedOptionalIndex s.stop
  pure ⟨a, b, s.step⟩

/-- Models `OffsetList.__getitem__` with an integer index (lines 47-52, integer
branch): translate the index, then delegate to `self.data[wrapped_i]`. -/
def getInt (ol : OffsetList α) (index : Int) : Except PyErr α := do
  let w ← ol.wrappedIntegerIndex index
  pyListGet ol.data w

/-- Models `OffsetList.__getitem__` with a slice (lines 47-52, slice branch): returns
`OffsetList(start_i=self.start_i, initlist=self.data[wrapped_i])`. -/
def getSlice (ol : OffsetList α) (s : PySlice) : Except PyErr (OffsetList α) := do
  let ws ← ol.wrappedSliceIndex s
  let d ← pyListSlice ol.data ws
  pure ⟨d, ol.start_i⟩

/-- The right operand of `OffsetList.__eq__`: `None`, another `OffsetList`,
or any other object (which is not an `OffsetList` instance). -/
inductive Operand (α : Type) where
  | none
  | ol (b : OffsetList α)
  | nonOL
deriving Repr

/-- Models `OffsetList.__eq__` (lines 84-96): `None` compares `False`; a
non-`OffsetList` operand raises; a different `start_i` raises; otherwise the
underlying zero-based lists are compared. -/
def eq [DecidableEq α] (a : OffsetList α) : Operand α → Except PyErr Bool
  | .none => .ok false
  | .ol b =>
      if a.start_i ≠ b.start_i then .error (.cannotCompareOffsets a.start_i b.start_i)
      else .ok (decide (a.data = b.data))
  | .nonOL => .error .cannotCompareType

end OffsetList

/-! Model of `OneIndexedList` (`src/nonstd/list.py`).

A standalone `collections.abc.MutableSequence` (not related to the
`OffsetList` hierarchy) with the start index fixed at 1.  Only the parts
needed by the claims are modelled. -/

namespace NonstdList

/-- The state of a `nonstd/list.py OneIndexedList`: the owned plain list. -/
structure OneIndexedList (α : Type) where
  _wrapped : List α
deriving DecidableEq, Repr

/-- Models `OneIndexedList._wrapped_integer_index` (list.py lines 26-35): index 0
raises, a positive index is shifted down by 1, a negative index passes
through. -/
def wrappedIntegerIndex (index : Int) : Except PyErr Int :=
  if index = 0 then .error .oneIndexedZero
  else if 0 < index then .ok (index - 1)
  else .ok index

/-- The scalar rule applied to one optional slice bound (`None` passes through). -/
def wrappedOptionalIndex : Option Int → Except PyErr (Option Int)
  | none => .ok none
  | some i => (wrappedIntegerIndex i).map some

/-- Models `OneIndexedList._wrapped_slice_index` (list.py lines 21-24). -/
def wrappedSliceIndex (s : PySlice) : Except PyErr PySlice := do
  let a ← wrappedOptionalIndex s.start
  let b ← wrappedOptionalIndex s.stop
  pure ⟨a, b, s.step⟩

/-- Models `OneIndexedList.__getitem__` with a slice (list.py lines 37-39): returns
`self._wrapped[wrapped_i]` — a plain Python list, not a `OneIndexedList`. -/
def OneIndexedList.getSlice (oil : OneIndexedList α) (s : PySlice) :
    Except PyErr (List α) := do
  let ws ← wrappedSliceIndex s
  pyListSlice oil._wrapped ws

/-- Models `OneIndexedList.__getitem__` with an integer index (list.py lines 37-39). -/
def OneIndexedList.getInt (oil : OneIndexedList α) (index : Int) : Except PyErr α := do
  let w ← wrappedIntegerIndex index
  pyListGet oil._wrapped w

/-- The right operand of `list.py OneIndexedList.__eq__`. -/
inductive Operand (α : Type) where
  | oil (b : OneIndexedList α)
  | plainList (l : List α)
deriving Repr

/-- Models `OneIndexedList.__eq__` (list.py lines 59-62): raises unless the operand
is also a `OneIndexedList` (there is no `None` special case here). -/
def OneIndexedList.eq [DecidableEq α] (a : OneIndexedList α) :
    Operand α → Except PyErr Bool
  | .oil b => .ok (decide (a._wrapped = b._wrapped))
  | .plainList _ => .error .cannotCompareType

/-- The Python expression `l == b` where `l` is a plain `list` and `b` a
`list.py OneIndexedList`: `list.__eq__` returns `NotImplemented` because `b`
is not a `list`, so Python falls back to the reflected
`OneIndexedList.__eq__(b, l)`, which raises. -/
def pyEqListOIL [DecidableEq α] (l : List α) (b : OneIndexedList α) :
    Except PyErr Bool :=
  b.eq (.plainList l)

end NonstdList

/-! Model of `FlexibleSequence` (`src/nonstd/sequence.py`, lines 120-302). -/

/-- Models `FlexibleSequenceDefinition` (sequence.py lines 120-123). -/
inductive FlexibleSequenceDefinition where
  | DIRECT
  | CONSTANT
  | CALLABLE
deriving DecidableEq, Repr

/-- The state of a `FlexibleSequence` after `__init__`: the constructor
choice records both `self.wrapped` and `self.definition` (the classification
is a function of the spec's shape: ordered sequence → DIRECT, callable →
CALLABLE, anything else → CONSTANT).  `length` is `self.length` (`none`
models `math.inf`), and the last field is `self.c_start_i`.  A wrapped
ordered sequence is either a plain list (`direct`) or itself a
`FlexibleSequence` (`directFlex`), which Python also classifies as DIRECT
because `FlexibleSequence` subclasses `collections.abc.Sequence`. -/
inductive FlexibleSequence (α : Type) : Type where
  | direct (l : List α) (length : Option Nat) (c_start_i : Int)
  | directFlex (inner : FlexibleSequence α) (length : Option Nat) (c_start_i : Int)
  | constant (v : α) (length : Option Nat) (c_start_i : Int)
  | callable (f : Int → α) (length : Option Nat) (c_start_i : Int)

namespace FlexibleSequence

/-- Computes `self.definition`, as assigned by `__init__` (lines 170-176). -/
def definition : FlexibleSequence α → FlexibleSequenceDefinition
  | .direct _ _ _ => .DIRECT
  | .directFlex _ _ _ => .DIRECT
  | .constant _ _ _ => .CONSTANT
  | .callable _ _ _ => .CALLABLE

/-- The stored `self.length` (`none` models `math.inf`). -/
def length : FlexibleSequence α → Option Nat
  | .direct _ n _ => n
  | .directFlex _ n _ => n
  | .constant _ n _ => n
  | .callable _ n _ => n

/-- Models `FlexibleSequence.__len__` (lines 195-203): DIRECT delegates to
`len(self.wrapped)`; otherwise a finite stored length is returned and an
infinite one raises `IndexError("Infinite sequence")`. -/
def pyLen : FlexibleSequence α → Except PyErr Nat
  | .direct l _ _ => .ok l.length
  | .directFlex inner _ _ => inner.pyLen
  | .constant _ len _ =>
      match len with
      | some n => .ok n
      | none => .error .infiniteSequence
  | .callable _ len _ =>
      match len with
      | some n => .ok n
      | none => .error .infiniteSequence

/-- Models `FlexibleSequence._get_int` (lines 224-235).  CONSTANT ignores the index;
DIRECT delegates to the wrapped sequence's own indexing; CALLABLE resolves a
negative index through the finite length (raising when the length is
infinite) and then calls `self.wrapped(self.c_start_i + index)`.  Note there
is no upper bounds check for CONSTANT or CALLABLE. -/
def getInt : FlexibleSequence α → Int → Except PyErr α
  | .direct l _ _, i => pyListGet l i
  | .directFlex inner _ _, i => inner.getInt i
  | .constant v _ _, _ => .ok v
  | .callable f len c, i =>
      if i < 0 then
        match len with
        | none => .error (.negativeForbidden i)
        | some n => .ok (f (c + ((n : Int) + i)))
      else .ok (f (c + i))

/-- Models `FlexibleSequence.__iter__` (lines 186-193) materialized to a list:
DIRECT yields from the wrapped sequence; CONSTANT/CALLABLE with finite
length yield `self[i]` for `i` in `range(self.length)` (each such `self[i]`
is the constant, resp. `f(c_start_i + i)`); an unbounded instance iterates
forever, modelled as `none`. -/
def materialize : FlexibleSequence α → Option (List α)
  | .direct l _ _ => some l
  | .directFlex inner _ _ => inner.materialize
  | .constant v len _ =>
      match len with
      | some n => some (List.replicate n v)
      | none => none
  | .callable f len c =>
      match len with
      | some n => some ((List.range n).map (fun i : Nat => f (c + (i : Int))))
      | none => none

/-- Models `FlexibleSequence._raise_if_infinite_result` (lines 267-297), including
the `CatchNoneComparisons` context manager: a comparison of `None` with `0`
raises a `TypeError` that is swallowed, silently ending the block. -/
def raiseIfInfiniteResult (s : PySlice) : Except PyErr Unit :=
  let step := s.step.getD 1
  if s.start = none ∧ s.stop = none then .error .infiniteSliceResult
  else if 0 < step then
    match s.stop with
    | none =>
        -- here `s.start` is not `None` (the both-`None` case raised above):
        -- `if _slice.start >= 0: raise`; else the next guard
        -- `(start is None) or (start >= 0)` is false, ending the block.
        match s.start with
        | some a => if 0 ≤ a then .error .infiniteSliceResult else .ok ()
        | none => .ok ()
    | some b =>
        -- `if (start is None) or (start >= 0): if stop < 0: raise`
        match s.start with
        | none => if b < 0 then .error .infiniteSliceResult else .ok ()
        | some a =>
            if 0 ≤ a then
              (if b < 0 then .error .infiniteSliceResult else .ok ())
            else .ok ()
  else if step < 0 then
    match s.start with
    | none =>
        -- `if stop >= 0: raise`; when `stop < 0` the following comparison
        -- `start < 0` is a TypeError on `None`, swallowed: block ends.
        match s.stop with
        | some b => if 0 ≤ b then .error .infiniteSliceResult else .ok ()
        | none => .ok ()
    | some a =>
        if a < 0 then
          (if s.stop = none ∨ 0 ≤ s.stop.getD 0 then .error .infiniteSliceResult
           else .ok ())
        else .ok ()
  else .ok ()

/-- Models `FlexibleSequence._get_slice` (lines 237-265).  For a callable unbounded
instance, negative explicit bounds are rejected first (a `None` bound makes
`None < 0` raise a `TypeError` that `CatchNoneComparisons` swallows, ending
that block).  A finite instance normalizes the slice against `self.length`;
an unbounded one runs `_raise_if_infinite_result` and normalizes against the
conservative bound `1 + abs(start) + abs(stop)`.  The result is always a new
`FlexibleSequence` built from materialized data (or, for DIRECT, from the
wrapped sequence's own slice). -/
def getSlice : FlexibleSequence α → PySlice → Except PyErr (FlexibleSequence α)
  | fs, s => do
    match fs with
    | .callable _ none _ =>
        match s.start with
        | none => pure ()
        | some a =>
          if a < 0 then throw (PyErr.negativeForbidden a)
          else
            match s.stop with
            | none => pure ()
            | some b => if b < 0 then throw (PyErr.negativeForbidden b) else pure ()
    | _ => pure ()
    let intIndices ← match fs.length with
      | some n => do
          let (st, sp, stp) ← pySliceIndices s n
          pure (rangeList st sp stp)
      | none => do
          raiseIfInfiniteResult s
          let maxLength : Int := 1 +
            (match s.start with | some a => |a| | none => 0) +
            (match s.stop with | some b => |b| | none => 0)
          let (st, sp, stp) ← pySliceIndices s maxLength.toNat
          pure (rangeList st sp stp)
    match fs with
    | .constant v _ _ =>
        -- `FlexibleSequence([self.wrapped] * len(int_indices))`
        pure (.direct (List.replicate intIndices.length v) (some intIndices.length) 0)
    | .direct l _ _ => do
        -- `FlexibleSequence(self.wrapped[_slice])`
        let l' ← pyListSlice l s
        pure (.direct l' (some l'.length) 0)
    | .directFlex inner _ _ => do
        let r ← inner.getSlice s
        let rl ← r.pyLen
        pure (.directFlex r (some rl) 0)
    | .callable _ _ _ => do
        -- `FlexibleSequence([self._get_int(i) for i in int_indices])`
        let vals ← intIndices.mapM (fun i => fs.getInt i)
        pure (.direct vals (some vals.length) 0)

/-- The `spec` argument of `FlexibleSequence.__init__`: a plain ordered
sequence, an existing `FlexibleSequence` (also an ordered sequence for
`isinstance`), a callable, or any other object. -/
inductive Spec (α : Type) : Type where
  | seq (l : List α)
  | flex (fs : FlexibleSequence α)
  | func (f : Int → α)
  | const (v : α)

/-- Tests `isinstance(spec, Sequence)`. -/
def Spec.isSeq : Spec α → Bool
  | .seq _ => true
  | .flex _ => true
  | .func _ => false
  | .const _ => false

/-- The builtin `len(spec)`: defined for ordered sequences (for a wrapped
`FlexibleSequence` it calls its `__len__`, which raises on an unbounded
instance); calling `len` on a callable or other object is a `TypeError`
(never reached from `__init__`, which tests `isinstance(spec, Sequence)`
first). -/
def Spec.pyLenSpec : Spec α → Except PyErr Nat
  | .seq l => .ok l.length
  | .flex fs => fs.pyLen
  | .func _ => .error .noLen
  | .const _ => .error .noLen

/-- Models `FlexibleSequence.__init__` (lines 127-184).  Line 164 tests
`isinstance(spec, Sequence) and length and len(spec) != length` — note that
an explicit `length` of `0` is falsy, so the mismatch check is skipped for
it.  A DIRECT instance stores `len(self.wrapped)` as its length (line 172);
otherwise the explicit length is stored, or `math.inf` when absent. -/
def init (spec : Spec α) (length : Option Nat) (callable_start_i : Int) :
    Except PyErr (FlexibleSequence α) := do
  match length with
  | some n =>
      if spec.isSeq ∧ n ≠ 0 then
        match spec.pyLenSpec with
        | .ok sl => if sl ≠ n then throw (PyErr.mismatchedLengths sl n) else pure ()
        | .error e => throw e
      else pure ()
  | none => pure ()
  match spec with
  | .seq l => pure (.direct l (some l.length) callable_start_i)
  | .flex fs => do
      let sl ← fs.pyLen
      pure (.directFlex fs (some sl) callable_start_i)
  | .func f => pure (.callable f length callable_start_i)
  | .const v => pure (.constant v length callable_start_i)

/-- The right operand of `FlexibleSequence.__eq__`: `None`, another
`FlexibleSequence`, a plain iterable (list), or a non-iterable object. -/
inductive Operand (α : Type) : Type where
  | none
  | flex (b : FlexibleSequence α)
  | pyList (l : List α)
  | nonIterable

/-- Models `FlexibleSequence.__eq__` (lines 211-214): `None` compares `False`;
otherwise `[i for i in self] == [i for i in other]` — the left comprehension
is evaluated first, so an unbounded `self` (or `other`) loops forever
(modelled as the outer `none`), and a non-iterable `other` raises
`TypeError`. -/
def eq [DecidableEq α] (a : FlexibleSequence α) :
    Operand α → Option (Except PyErr Bool)
  | .none => some (.ok false)
  | .flex b =>
      match a.materialize with
      | Option.none => Option.none
      | some la =>
          match b.materialize with
          | Option.none => Option.none
          | some lb => some (.ok (decide (la = lb)))
  | .pyList l =>
      match a.materialize with
      | Option.none => Option.none
      | some la => some (.ok (decide (la = l)))
  | .nonIterable =>
      match a.materialize with
      | Option.none => Option.none
      | some _ => some (.error .notIterable)

end FlexibleSequence

/-! Reduction helpers for the `Except` monad and list traversals. -/

@[simp] theorem pyBind_ok {β γ : Type} (a : β) (f : β → Except PyErr γ) :
    (Except.ok a : Except PyErr β) >>= f = f a := rfl

@[simp] theorem pyBind_error {β γ : Type} (e : PyErr) (f : β → Except PyErr γ) :
    (Except.error e : Except PyErr β) >>= f = Except.error e := rfl

@[simp] theorem pyPure_eq {β : Type} (a : β) :
    (pure a : Except PyErr β) = Except.ok a := rfl

@[simp] theorem pyThrow_eq {β : Type} (e : PyErr) :
    (throw e : Except PyErr β) = Except.error e := rfl

/-- Running `mapM` of an everywhere-successful function over `Except` is `map`. -/
theorem mapM_ok {β γ : Type} (g : β → γ) (l : List β) :
    l.mapM (fun a => (Except.ok (g a) : Except PyErr γ)) = Except.ok (l.map g) := by
  induction l with
  | nil => rfl
  | cons x xs ih => rw [List.mapM_cons, ih]; rfl

/-- Evaluating `range(0, b, 1)` gives `[0, ..., b-1]` (as integers). -/
theorem rangeList_zero_cast (b : Nat) :
    rangeList 0 (b : Int) 1 = (List.range b).map (fun k : Nat => (k : Int)) := by
  unfold rangeList
  norm_num

/-- Evaluating `_get_int` on an unbounded CALLABLE at a non-negative index. -/
theorem getInt_callable_cast {α : Type} (f : Int → α) (c : Int) (k : Nat) :
    FlexibleSequence.getInt (.callable f none c) ((k : Nat) : Int) =
      .ok (f (c + (k : Int))) := by
  unfold FlexibleSequence.getInt
  rw [if_neg (by omega)]

/-- Running `mapM` (via its accumulator loop) of an everywhere-successful function. -/
theorem mapM_loop_ok {β γ : Type} (h : β → Except PyErr γ) (g : β → γ) :
    ∀ (l : List β), (∀ x ∈ l, h x = .ok (g x)) → ∀ (acc : List γ),
      List.mapM.loop h l acc = .ok (acc.reverse ++ l.map g)
  | [], _, acc => by simp [List.mapM.loop]
  | x :: xs, hl, acc => by
      have hx : h x = .ok (g x) := hl x (List.mem_cons_self x xs)
      have ih := mapM_loop_ok h g xs
        (fun y hy => hl y (List.mem_cons_of_mem x hy)) (g x :: acc)
      simp [List.mapM.loop, hx, ih]

/-- The slice comprehension `[self._get_int(i) for i in range(0, b)]` on an
unbounded CALLABLE evaluates the function at `c + 0 .. c + b - 1`. -/
theorem mapM_loop_getInt_callable {α : Type} (f : Int → α) (c : Int) (b : Nat) :
    List.mapM.loop (fun i => FlexibleSequence.getInt (.callable f none c) i)
      ((List.range b).map (fun k : Nat => (k : Int))) [] =
      .ok ((List.range b).map (fun k : Nat => f (c + (k : Int)))) := by
  rw [mapM_loop_ok _ (fun i : Int => f (c + i)) _ ?_ []]
  · simp [List.map_map, Function.comp]
  · intro x hx
    rw [List.mem_map] at hx
    obtain ⟨k, _, rfl⟩ := hx
    exact getInt_callable_cast f c k

/-! Claim theorems. -/

/-- Claim C1, counterexample.  With a negative start offset the first clause
of the claim fails: for `data = [10,20,30,40,50]`, `k = -3`, the logical
index `i = -2` satisfies `i ≥ k` and is valid (it is in `keys()`), but the
code takes the negative-index branch and returns `data[-2] = 40`, not
`data[i-k] = data[1] = 20`. -/
theorem offset_invariant_counterexample :
    OffsetList.getInt (⟨[10, 20, 30, 40, 50], -3⟩ : OffsetList Int) (-2) = .ok 40 ∧
    pyListGet ([10, 20, 30, 40, 50] : List Int) ((-2 : Int) - (-3)) = .ok 20 ∧
    OffsetList.getInt (⟨[10, 20, 30, 40, 50], -3⟩ : OffsetList Int) (-2) ≠
      pyListGet ([10, 20, 30, 40, 50] : List Int) ((-2 : Int) - (-3)) := by
  refine ⟨rfl, rfl, ?_⟩
  intro h
  rw [show OffsetList.getInt (⟨[10, 20, 30, 40, 50], -3⟩ : OffsetList Int) (-2) =
        .ok 40 from rfl,
      show pyListGet ([10, 20, 30, 40, 50] : List Int) ((-2 : Int) - (-3)) =
        .ok 20 from rfl] at h
  injection h with h
  exact absurd h (by decide)

/-- Claim C1 (amended): the `data[i-k]` clause holds for non-negative logical
indices `i ≥ k` (same value, and the same out-of-range failure); any negative
`i` — even one with `i ≥ k`, which arises when `k < 0` — behaves identically
to indexing `data` with `i` directly. -/
theorem offset_invariant_amended {α : Type} (data : List α) (k i : Int) :
    (0 ≤ i → k ≤ i →
      OffsetList.getInt ⟨data, k⟩ i = pyListGet data (i - k)) ∧
    (i < 0 → OffsetList.getInt ⟨data, k⟩ i = pyListGet data i) := by
  constructor
  · intro h0 hk
    have h1 : ¬ i < 0 := by omega
    have h2 : ¬ i < k := by omega
    simp [OffsetList.getInt, OffsetList.wrappedIntegerIndex, h1, h2]
  · intro hneg
    simp [OffsetList.getInt, OffsetList.wrappedIntegerIndex, hneg]

/-- Claim C1, witness: both clauses of the amended statement at concrete
inputs (`OffsetList([10,20,30], start_i=1)`). -/
theorem offset_invariant_amended_witness :
    OffsetList.getInt (⟨[10, 20, 30], 1⟩ : OffsetList Int) 2 =
      pyListGet ([10, 20, 30] : List Int) (2 - 1) ∧
    OffsetList.getInt (⟨[10, 20, 30], 1⟩ : OffsetList Int) (-1) =
      pyListGet ([10, 20, 30] : List Int) (-1) :=
  ⟨(offset_invariant_amended [10, 20, 30] 1 2).1 (by decide) (by decide),
   (offset_invariant_amended [10, 20, 30] 1 (-1)).2 (by decide)⟩

/-- Claim C8 (confirmed): indexing an `OffsetList` with `0 ≤ i < start_i`
fails with the bounds error naming the forbidden index. -/
theorem below_start_rejection {α : Type} (ol : OffsetList α) (i : Int)
    (h0 : 0 ≤ i) (hk : i < ol.start_i) :
    ol.getInt i = .error (.offsetForbidden ol.start_i i) := by
  have h1 : ¬ i < 0 := by omega
  simp [OffsetList.getInt, OffsetList.wrappedIntegerIndex, h1, hk]

/-- Claim C8, witness: `OffsetList([1,2,3], start_i=5)[4]` fails, while
`[5] == 1`, `[6] == 2` and `[-1] == 3` succeed. -/
theorem below_start_rejection_witness :
    OffsetList.getInt (⟨[1, 2, 3], 5⟩ : OffsetList Int) 4 =
      .error (.offsetForbidden 5 4) ∧
    OffsetList.getInt (⟨[1, 2, 3], 5⟩ : OffsetList Int) 5 = .ok 1 ∧
    OffsetList.getInt (⟨[1, 2, 3], 5⟩ : OffsetList Int) 6 = .ok 2 ∧
    OffsetList.getInt (⟨[1, 2, 3], 5⟩ : OffsetList Int) (-1) = .ok 3 :=
  ⟨below_start_rejection ⟨[1, 2, 3], 5⟩ 4 (by decide) (by decide), rfl, rfl, rfl⟩

/-- Claim C6, counterexample: `OffsetList([1,2], start_i=1) == None` returns
the boolean `False` (sequence.py line 85-86), even though `None` is not an
`OffsetList`; the claim demands an incomparable-operands error for every
non-`OffsetList` operand. -/
theorem offsetlist_eq_counterexample :
    OffsetList.eq (⟨[1, 2], 1⟩ : OffsetList Int) OffsetList.Operand.none =
      .ok false ∧
    ¬ ∃ e : PyErr,
      OffsetList.eq (⟨[1, 2], 1⟩ : OffsetList Int) OffsetList.Operand.none =
        .error e := by
  refine ⟨rfl, ?_⟩
  rintro ⟨e, h⟩
  rw [show OffsetList.eq (⟨[1, 2], 1⟩ : OffsetList Int) OffsetList.Operand.none =
        .ok false from rfl] at h
  exact Except.noConfusion h

/-- Claim C6 (amended): comparing to `None` returns `False`; comparing to any
other non-`OffsetList` operand raises; two `OffsetList`s with different
`start_i` raise; with equal `start_i` the result is the boolean equality of
the underlying zero-based data. -/
theorem offsetlist_eq_amended {α : Type} [DecidableEq α] (a : OffsetList α) :
    (a.eq .none = .ok false) ∧
    (a.eq .nonOL = .error .cannotCompareType) ∧
    (∀ b : OffsetList α, a.start_i ≠ b.start_i →
      a.eq (.ol b) = .error (.cannotCompareOffsets a.start_i b.start_i)) ∧
    (∀ b : OffsetList α, a.start_i = b.start_i →
      a.eq (.ol b) = .ok (decide (a.data = b.data))) := by
  refine ⟨rfl, rfl, fun b h => ?_, fun b h => ?_⟩
  · simp [OffsetList.eq, h]
  · simp [OffsetList.eq, h]

/-- Claim C6, witness: the amended statement at concrete operands. -/
theorem offsetlist_eq_amended_witness :
    OffsetList.eq (⟨[1, 2], 1⟩ : OffsetList Int) (.ol ⟨[1], 2⟩) =
      .error (.cannotCompareOffsets 1 2) ∧
    OffsetList.eq (⟨[1, 2], 1⟩ : OffsetList Int) (.ol ⟨[1, 2], 1⟩) =
      .ok (decide (([1, 2] : List Int) = [1, 2])) :=
  ⟨(offsetlist_eq_amended (⟨[1, 2], 1⟩ : OffsetList Int)).2.2.1 ⟨[1], 2⟩ (by decide),
   (offsetlist_eq_amended (⟨[1, 2], 1⟩ : OffsetList Int)).2.2.2 ⟨[1, 2], 1⟩ rfl⟩

/-- Claim C9 (code bug), evaluation at the failing input.  For
`sequence.py`'s `OffsetList`, slicing does return an `OffsetList` with the
same `start_i` (third conjunct).  But for the standalone `OneIndexedList` of
`nonstd/list.py`, `OneIndexedList([1,2,3])[1:3]` returns the plain list
`[1, 2]` (first conjunct), and comparing that plain list to
`OneIndexedList([1,2])` — the repository's own `test_list.py`
`test_access_slice` assertion — raises `NotImplementedError` via the
reflected `__eq__` (second conjunct) instead of being `True`. -/
theorem slice_closure_eval :
    NonstdList.OneIndexedList.getSlice (⟨[1, 2, 3]⟩ : NonstdList.OneIndexedList Int)
      ⟨some 1, some 3, none⟩ = .ok [1, 2] ∧
    NonstdList.pyEqListOIL ([1, 2] : List Int) ⟨[1, 2]⟩ =
      .error .cannotCompareType ∧
    OffsetList.getSlice (⟨[1, 2, 3], 1⟩ : OffsetList Int) ⟨some 1, some 3, none⟩ =
      .ok ⟨[1, 2], 1⟩ :=
  ⟨rfl, rfl, rfl⟩

/-- Claim C2, counterexample: `FlexibleSequence(1, length=5)` is a finite
CONSTANT instance, yet `_get_int` performs no bounds check for it — both
index `100` and index `-100` return `1` instead of raising.  A finite
CALLABLE instance likewise evaluates its function at any index. -/
theorem finite_bounds_counterexample :
    FlexibleSequence.init (.const (1 : Int)) (some 5) 0 =
      .ok (.constant 1 (some 5) 0) ∧
    FlexibleSequence.getInt (.constant (1 : Int) (some 5) 0) 100 = .ok 1 ∧
    FlexibleSequence.getInt (.constant (1 : Int) (some 5) 0) (-100) = .ok 1 ∧
    FlexibleSequence.getInt (.callable (fun x : Int => x * x) (some 4) 0) 10 =
      .ok 100 :=
  ⟨rfl, rfl, rfl, rfl⟩

/-- Claim C2 (amended): out-of-range integer access fails only for DIRECT
instances, by delegation to the wrapped plain sequence's own bounds check;
finite CONSTANT and CALLABLE instances perform no bounds check at all. -/
theorem finite_bounds_amended {α : Type} (l : List α) (c i : Int)
    (h : (l.length : Int) ≤ i ∨ i < -(l.length : Int)) :
    FlexibleSequence.getInt (.direct l (some l.length) c) i =
      .error .indexOutOfRange := by
  show pyListGet l i = .error .indexOutOfRange
  rcases h with h | h
  · have h0 : ¬ i < 0 := by omega
    have h1 : l[i.toNat]? = none := List.getElem?_eq_none (by omega)
    simp [pyListGet, h0, h1]
  · have h0 : i < 0 := by omega
    have h1 : i + (l.length : Int) < 0 := by omega
    simp [pyListGet, h0, h1]

/-- Claim C2, witness: `FlexibleSequence((1,2,3))[5]` and `[-4]` raise. -/
theorem finite_bounds_amended_witness :
    FlexibleSequence.getInt (.direct ([1, 2, 3] : List Int) (some 3) 0) 5 =
      .error .indexOutOfRange ∧
    FlexibleSequence.getInt (.direct ([1, 2, 3] : List Int) (some 3) 0) (-4) =
      .error .indexOutOfRange :=
  ⟨finite_bounds_amended [1, 2, 3] 0 5 (by decide),
   finite_bounds_amended [1, 2, 3] 0 (-4) (by decide)⟩

/-- Claim C4 (code bug), evaluation at the failing input.  Line 164 guards
the mismatch check with the truthiness of `length`, so the explicit
`length=0` is treated as "not supplied": `FlexibleSequence([1,2,3], length=0)`
constructs successfully (as a DIRECT sequence of length 3) instead of raising
the mismatched-lengths `ValueError`.  Any nonzero mismatched length does
raise (second conjunct). -/
theorem length_mismatch_zero_eval :
    FlexibleSequence.init (.seq ([1, 2, 3] : List Int)) (some 0) 0 =
      .ok (.direct [1, 2, 3] (some 3) 0) ∧
    FlexibleSequence.init (.seq ([1, 2, 3] : List Int)) (some 2) 0 =
      .error (.mismatchedLengths 3 2) :=
  ⟨rfl, rfl⟩

/-- Claim C5 (confirmed): a CALLABLE instance with explicit length `n` and
`callable_start_i = c` returns `f(c + i)` for every `0 ≤ i < n`. -/
theorem callable_offset_formula {α : Type} (f : Int → α) (c : Int) (n : Nat)
    (i : Int) (h0 : 0 ≤ i) (hn : i < (n : Int)) :
    FlexibleSequence.getInt (.callable f (some n) c) i = .ok (f (c + i)) := by
  have h1 : ¬ i < 0 := by omega
  simp [FlexibleSequence.getInt, h1]

/-- Claim C5, witness: with `f(x) = x*x`, `c = 5`, `n = 4` index 2 yields
`f(7) = 49`, and the materialized sequence is `[25, 36, 49, 64]`;
construction stores exactly these parameters. -/
theorem callable_offset_formula_witness :
    FlexibleSequence.getInt (.callable (fun x : Int => x * x) (some 4) 5) 2 =
      .ok 49 ∧
    FlexibleSequence.init (.func (fun x : Int => x * x)) (some 4) 5 =
      .ok (.callable (fun x : Int => x * x) (some 4) 5) ∧
    FlexibleSequence.materialize (.callable (fun x : Int => x * x) (some 4) 5) =
      some [25, 36, 49, 64] := by
  refine ⟨?_, rfl, by decide⟩
  have h := callable_offset_formula (fun x : Int => x * x) 5 4 2 (by decide) (by decide)
  simpa using h

/-- Claim C7, counterexample: only `None` is special-cased in
`FlexibleSequence.__eq__`; comparing a finite instance to a non-iterable
operand evaluates `[i for i in other]`, which raises `TypeError` instead of
returning `False`. -/
theorem flex_eq_counterexample :
    FlexibleSequence.eq (.direct ([1, 2] : List Int) (some 2) 0)
      .nonIterable = some (.error .notIterable) ∧
    FlexibleSequence.eq (.direct ([1, 2] : List Int) (some 2) 0)
      .nonIterable ≠ some (.ok false) := by
  refine ⟨rfl, ?_⟩
  intro h
  rw [show FlexibleSequence.eq (.direct ([1, 2] : List Int) (some 2) 0)
        FlexibleSequence.Operand.nonIterable = some (.error .notIterable) from rfl] at h
  injection h with h
  exact Except.noConfusion h

/-- Claim C7 (amended): for finite instances, equality against another
finite `FlexibleSequence` or a plain list is the equality of the
materialized element sequences; comparing to `None` yields `False`; but a
non-`None` non-iterable operand raises a `TypeError` rather than comparing
`False`. -/
theorem flex_eq_amended {α : Type} [DecidableEq α] (a : FlexibleSequence α)
    (la : List α) (ha : a.materialize = some la) :
    (a.eq .none = some (.ok false)) ∧
    (∀ (b : FlexibleSequence α) (lb : List α), b.materialize = some lb →
      a.eq (.flex b) = some (.ok (decide (la = lb)))) ∧
    (∀ l : List α, a.eq (.pyList l) = some (.ok (decide (la = l)))) ∧
    (a.eq .nonIterable = some (.error .notIterable)) := by
  refine ⟨rfl, fun b lb hb => ?_, fun l => ?_, ?_⟩
  · simp [FlexibleSequence.eq, ha, hb]
  · simp [FlexibleSequence.eq, ha]
  · simp [FlexibleSequence.eq, ha]

/-- Claim C7, witness: the amended statement at concrete operands
(`FlexibleSequence(lambda x: x**2, length=5) == FlexibleSequence([0,1,4,9,16])
== [0,1,4,9,16]`, from the repository's own equality test). -/
theorem flex_eq_amended_witness :
    FlexibleSequence.eq (.callable (fun x : Int => x * x) (some 5) 0)
      (.flex (.direct [0, 1, 4, 9, 16] (some 5) 0)) = some (.ok true) ∧
    FlexibleSequence.eq (.callable (fun x : Int => x * x) (some 5) 0)
      (.pyList [0, 1, 4, 9, 16]) = some (.ok true) ∧
    FlexibleSequence.eq (.callable (fun x : Int => x * x) (some 5) 0)
      .none = some (.ok false) ∧
    FlexibleSequence.eq (.callable (fun x : Int => x * x) (some 5) 0)
      .nonIterable = some (.error .notIterable) := by
  have h := flex_eq_amended (.callable (fun x : Int => x * x) (some 5) 0)
    [0, 1, 4, 9, 16] (by decide)
  refine ⟨?_, ?_, h.1, h.2.2.2⟩
  · have h2 := h.2.1 (.direct [0, 1, 4, 9, 16] (some 5) 0) [0, 1, 4, 9, 16] rfl
    simpa using h2
  · have h3 := h.2.2.1 [0, 1, 4, 9, 16]
    simpa using h3

/-- Claim C3 (confirmed): slicing an unbounded CONSTANT or CALLABLE instance
with both `start` and `stop` unset raises the infinite-slice error (first two
conjuncts), while `[0:b]` for any concrete `b ≥ 0` succeeds and materializes
exactly `b` elements (next two conjuncts: `b` copies of the constant, resp.
`f(c+0) .. f(c+b-1)`); in particular `FlexibleSequence(1)[0:5]` is a
DIRECT sequence over `[1,1,1,1,1]` and compares equal to `[1,1,1,1,1]`. -/
theorem infinite_slice_boundary :
    (∀ (α : Type) (v : α) (c : Int),
      FlexibleSequence.getSlice (.constant v none c) ⟨none, none, none⟩ =
        .error .infiniteSliceResult) ∧
    (∀ (α : Type) (f : Int → α) (c : Int),
      FlexibleSequence.getSlice (.callable f none c) ⟨none, none, none⟩ =
        .error .infiniteSliceResult) ∧
    (∀ (α : Type) (v : α) (c : Int) (b : Nat),
      FlexibleSequence.getSlice (.constant v none c) ⟨some 0, some (b : Int), none⟩ =
        .ok (.direct (List.replicate b v) (some b) 0)) ∧
    (∀ (α : Type) (f : Int → α) (c : Int) (b : Nat),
      FlexibleSequence.getSlice (.callable f none c) ⟨some 0, some (b : Int), none⟩ =
        .ok (.direct ((List.range b).map (fun k : Nat => f (c + (k : Int)))) (some b) 0)) ∧
    (FlexibleSequence.getSlice (.constant (1 : Int) none 0) ⟨some 0, some 5, none⟩ =
      .ok (.direct [1, 1, 1, 1, 1] (some 5) 0)) ∧
    (FlexibleSequence.eq (.direct ([1, 1, 1, 1, 1] : List Int) (some 5) 0)
      (.pyList [1, 1, 1, 1, 1]) = some (.ok true)) := by
  refine ⟨fun α v c => rfl, fun α f c => rfl, fun α v c b => ?_, fun α f c b => ?_, rfl, rfl⟩
  · have hb : ¬ ((b : Int) < 0) := by omega
    simp [FlexibleSequence.getSlice, FlexibleSequence.length,
      FlexibleSequence.raiseIfInfiniteResult, pySliceIndices, hb, rangeList_zero_cast]
  · have hb : ¬ ((b : Int) < 0) := by omega
    simp [FlexibleSequence.getSlice, FlexibleSequence.length,
      FlexibleSequence.raiseIfInfiniteResult, pySliceIndices, hb, rangeList_zero_cast,
      mapM_loop_getInt_callable]

/-- Claim C10 (confirmed): wrapping an unbounded CONSTANT or CALLABLE
`FlexibleSequence` in a new `FlexibleSequence` never succeeds: the wrapped
instance is itself an ordered sequence, so `__init__` classifies it DIRECT
and computes `len(self.wrapped)` (line 172), which raises
`IndexError("Infinite sequence")`. -/
theorem wrap_unbounded_raises :
    (∀ (v : Int) (c c' : Int),
      FlexibleSequence.init (.flex (.constant v none c)) none c' =
        .error .infiniteSequence) ∧
    (∀ (f : Int → Int) (c c' : Int),
      FlexibleSequence.init (.flex (.callable f none c)) none c' =
        .error .infiniteSequence) :=
  ⟨fun _ _ _ => rfl, fun _ _ _ => rfl⟩

end Nonstd
